import Mathlib

/-!
Shallow embedding of the monitowl agent core
(`whmonit/client/agent.py`, `whmonit/client/sensors/base.py`,
`whmonit/common/time.py`, `whmonit/common/serialization/base.py` and
`whmonit/common/serialization/json.py`) together with theorems that settle the
specification claims about the Shipper response hook, the adaptive pacing, the
clock precheck, the worker-side result validation, timestamp range checking,
the pack and unpack framing, the per-sensor storage manager and the
configuration filter.

Machine-level conventions: Python integers are `Int` or `Nat`, SQL text values
are `String`, timestamps are integer milliseconds, rational numbers stand for
Python floats in the pacing arithmetic (the pacing logic only adds and
subtracts multiples of 0.2 and compares against constants, which the intended
real-number semantics captures), and fallible code returns `Except` or pairs a
result with an optional uncaught exception.
-/

namespace Monitowl

/-- JSON values as returned by a successful `json.loads` on a response body.
JSON numbers are modelled as integers; fractional numbers do not occur in any
acknowledgement body shape handled by the hook. -/
inductive JVal where
  | null
  | bool (b : Bool)
  | num (n : Int)
  | str (s : String)
  | arr (elems : List JVal)
  | obj (fields : List (String × JVal))

/-- Python exceptions that can escape the modelled code paths uncaught. -/
inductive PyExn where
  | keyError
  | typeError
  | sqlError
deriving DecidableEq

/-- One row of the `sensordata` spool table, `(stamp, config_id, stream,
result)`, all TEXT columns, as created by `Agent._prepare_sqlite`. -/
structure SpoolRow where
  stamp : String
  config_id : String
  stream : String
  result : String
deriving DecidableEq

/-- The part of the Shipper process state that `Shipper._reqdone` reads and
writes: the spool `sensordata` table contents and the `_confails` counter. -/
structure ShipperState where
  table : List SpoolRow
  confails : Nat
deriving DecidableEq

/-- Outcome of `json.loads(response.text)` inside `Shipper._reqdone`: either a
`ValueError` because the body is not JSON, or the parsed JSON value. -/
inductive BodyParse where
  | invalid
  | json (v : JVal)

/-- An HTTP response as seen by the requests response hook: the status code
(0 when no connection could be made) and the parse outcome of the body text. -/
structure Response where
  status_code : Nat
  body : BodyParse

/-- Log events emitted by `Shipper._reqdone`, in source order. -/
inductive LogEvent where
  | connectionFailed
  | dataSent
  | sendingError
  | receivedDataInvalid
  | postProblem
deriving DecidableEq

/-- Python subscript `v[key]` on a parsed JSON value: `KeyError` when the key
is missing from a dict, `TypeError` when the value is not a dict (string and
list subscripts take integers, numbers are not subscriptable). -/
def JVal.getItem (v : JVal) (key : String) : Except PyExn JVal :=
  match v with
  | .obj fields =>
    match fields.lookup key with
    | some x => Except.ok x
    | none => Except.error PyExn.keyError
  | _ => Except.error PyExn.typeError

/-- Python equality of a JSON value against a string literal, as in
`data_saved['status'] == 'Not_all_saved'`: true only for that exact string,
false (never an error) for every other value. -/
def JVal.isStr (v : JVal) (s : String) : Bool :=
  match v with
  | .str t => t = s
  | _ => false

/-- Python iteration over a parsed JSON value, as `izip` performs it: a list
iterates its elements, a string iterates its one-character substrings, a dict
iterates its keys, and every other value raises `TypeError`. -/
def JVal.iterList : JVal → Except PyExn (List JVal)
  | .arr xs => Except.ok xs
  | .str s => Except.ok (s.data.map fun c => JVal.str (String.mk [c]))
  | .obj fields => Except.ok (fields.map fun f => JVal.str f.1)
  | _ => Except.error PyExn.typeError

/-- Whether a JSON value can be bound as an sqlite parameter (the sqlite3
module adapts strings, numbers, booleans and None; lists and dicts raise
`InterfaceError`). -/
def JVal.bindable : JVal → Bool
  | .arr _ => false
  | .obj _ => false
  | _ => true

/-- Iterate every row of the acknowledgement list in turn, as `izip` does with
its arguments; the first non-iterable row raises. -/
def iterRows : List JVal → Except PyExn (List (List JVal))
  | [] => Except.ok []
  | r :: rs =>
    match r.iterList with
    | Except.error e => Except.error e
    | Except.ok l =>
      match iterRows rs with
      | Except.error e => Except.error e
      | Except.ok ls => Except.ok (l :: ls)

/-- Model of `sum(izip(*data_to_remove), ())` feeding the twin placeholder
lists of `DELETE FROM sensordata WHERE config_id IN (...) AND stamp IN (...)`.
With `n = len(data_to_remove)` the statement carries `2 * n` placeholders and
`izip` transposes the rows, truncating to the shortest row length, so the
statement executes exactly when `n > 0` and the shortest row length is 2 (the
common case: all rows have length exactly 2); then the first components of the
rows bind the `config_id` list and the second components bind the `stamp`
list. An empty outer value makes `IN ()` a syntax error, a parameter count
mismatch (shortest row length other than 2) raises before the delete, and an
unbindable parameter raises `InterfaceError`; all of these leave the table
untouched. -/
def deleteBindings (v : JVal) : Except PyExn (List JVal × List JVal) :=
  match v.iterList with
  | Except.error e => Except.error e
  | Except.ok rows =>
    if rows.isEmpty then
      Except.error PyExn.sqlError
    else
      match iterRows rows with
      | Except.error e => Except.error e
      | Except.ok iters =>
        if (iters.all fun l => 2 ≤ l.length) && (iters.any fun l => l.length = 2) then
          let ids := iters.map fun l => l.headD JVal.null
          let stamps := iters.map fun l => (l.drop 1).headD JVal.null
          if (ids ++ stamps).all JVal.bindable then
            Except.ok (ids, stamps)
          else
            Except.error PyExn.typeError
        else
          Except.error PyExn.sqlError

/-- SQL equality of a TEXT column value against a bound JSON parameter.
The column has TEXT affinity and a bound parameter has none, so sqlite applies
TEXT affinity to the parameter: integers and booleans compare through their
canonical text rendering, NULL compares as no match. -/
def sqlValEq (column : String) (v : JVal) : Bool :=
  match v with
  | .str t => column = t
  | .num n => column = toString n
  | .bool b => column = (if b then "1" else "0")
  | _ => false

/-- The row filter of the DELETE statement in `Shipper._reqdone`: a row is
removed exactly when its `config_id` matches some element of the first
parameter list and its `stamp` matches some element of the second. -/
def deleteRows (table : List SpoolRow) (ids stamps : List JVal) : List SpoolRow :=
  table.filter fun r =>
    ¬ ((ids.any fun v => sqlValEq r.config_id v)
        ∧ (stamps.any fun v => sqlValEq r.stamp v))

/-- Result of running the response hook: the shipper state after the hook, the
log events it emitted, and the uncaught exception if one escaped it. -/
structure ReqdoneOut where
  state : ShipperState
  logs : List LogEvent
  exn : Option PyExn
deriving DecidableEq

/-- Embedding of `Shipper._reqdone` (`whmonit/client/agent.py`, the version
with the JSON acknowledgement parse). `data_to_remove` holds the
`(config_id, stamp)` text pairs of the batch the Shipper just sent. Status 0
bumps `_confails` (clamped at 200) and returns; any other status resets
`_confails` to 1; statuses 200 and 400 parse the body as JSON, switch the
delete set to the `data` field when the `status` field equals
`Not_all_saved`, and run the twin IN-list DELETE; other statuses only log. -/
def reqdone (st : ShipperState) (data_to_remove : List (String × String))
    (resp : Response) : ReqdoneOut :=
  if resp.status_code = 0 then
    { state := { st with confails := min (st.confails + 1) 200 }
      logs := [LogEvent.connectionFailed]
      exn := none }
  else
    let logs0 := if resp.status_code = 200 then [LogEvent.dataSent] else [LogEvent.sendingError]
    let st := { st with confails := 1 }
    if resp.status_code = 200 ∨ resp.status_code = 400 then
      match resp.body with
      | .invalid =>
        { state := st, logs := logs0 ++ [LogEvent.receivedDataInvalid], exn := none }
      | .json data_saved =>
        match data_saved.getItem "status" with
        | .error e => { state := st, logs := logs0, exn := some e }
        | .ok status_val =>
          let toDel : Except PyExn (List JVal × List JVal) :=
            if status_val.isStr "Not_all_saved" then
              match data_saved.getItem "data" with
              | .error e => Except.error e
              | .ok d => deleteBindings d
            else
              deleteBindings (JVal.arr (data_to_remove.map fun p =>
                JVal.arr [JVal.str p.1, JVal.str p.2]))
          match toDel with
          | .error e => { state := st, logs := logs0, exn := some e }
          | .ok (ids, stamps) =>
            { state := { st with table := deleteRows st.table ids stamps }
              logs := logs0
              exn := none }
    else
      { state := st, logs := logs0 ++ [LogEvent.postProblem], exn := none }

/-- The sleeptime adjustment in `Shipper.run`, applied each cycle to the
number of rows the SELECT fetched: above 200 rows decrease by 0.2 with floor
0.2, below 160 rows increase by 0.2 with ceiling 1.0, otherwise unchanged. -/
def adjustSleeptime (sleeptime : ℚ) (ndata : ℕ) : ℚ :=
  if ndata > 200 then
    max (1/5) (sleeptime - 1/5)
  else if ndata < 160 then
    min 1 (sleeptime + 1/5)
  else
    sleeptime

/-- Sleeptime after a sequence of Shipper cycles with the given fetched batch
sizes, starting from the initial `sleeptime = 1.0` set in `Shipper.__init__`. -/
def sleepAfter (sizes : List ℕ) : ℚ :=
  sizes.foldl adjustSleeptime 1

/-- The five values the spec names for the adaptive pacing. -/
def sleepGrid : List ℚ := [1/5, 2/5, 3/5, 4/5, 1]

/-- Folding `Shipper._reqdone` over a sequence of hook invocations that all
carry status code 0 (no connection), threading the shipper state. -/
def reqdoneZeroFold (st : ShipperState)
    (steps : List (List (String × String) × BodyParse)) : ShipperState :=
  steps.foldl (fun s step => (reqdone s step.1 ⟨0, step.2⟩).state) st

/-- On the branch that acknowledges the whole batch, the hook rebuilds the
binding lists from the `(config_id, stamp)` pairs of the batch itself; for a
nonempty batch this always reaches the DELETE with the first components as the
`config_id` list and the second components as the `stamp` list. -/
theorem deleteBindings_batch (pairs : List (String × String)) (h : pairs ≠ []) :
    deleteBindings (JVal.arr (pairs.map fun p =>
        JVal.arr [JVal.str p.1, JVal.str p.2])) =
      Except.ok (pairs.map fun p => JVal.str p.1, pairs.map fun p => JVal.str p.2) := by
  have hmap : ∀ (l : List (String × String)),
      iterRows (l.map fun p => JVal.arr [JVal.str p.1, JVal.str p.2]) =
        Except.ok (l.map fun p => [JVal.str p.1, JVal.str p.2]) := by
    intro l
    induction l with
    | nil => rfl
    | cons x xs ih => simp [iterRows, JVal.iterList, ih]
  cases pairs with
  | nil => exact absurd rfl h
  | cons q qs =>
    have h2 : iterRows (JVal.arr [JVal.str q.1, JVal.str q.2] ::
        List.map (fun p => JVal.arr [JVal.str p.1, JVal.str p.2]) qs) =
        Except.ok ([JVal.str q.1, JVal.str q.2] ::
          List.map (fun p => [JVal.str p.1, JVal.str p.2]) qs) := by
      simpa using hmap (q :: qs)
    have hc1 : ((List.map (fun p => [JVal.str p.1, JVal.str p.2]) qs).all
        fun l => decide (2 ≤ l.length)) = true := by
      simp only [List.all_eq_true, List.mem_map, Prod.exists, forall_exists_index, and_imp]
      rintro x a b _ rfl
      simp
    have hc2 : ((List.map (fun p => [JVal.str p.1, JVal.str p.2]) qs).all
        fun l => JVal.bindable (l.headD JVal.null)) = true := by
      simp only [List.all_eq_true, List.mem_map, Prod.exists, forall_exists_index, and_imp]
      rintro x a b _ rfl
      simp [JVal.bindable]
    have hc3 : ((List.map (fun p => [JVal.str p.1, JVal.str p.2]) qs).all
        fun l => JVal.bindable ((List.drop 1 l).headD JVal.null)) = true := by
      simp only [List.all_eq_true, List.mem_map, Prod.exists, forall_exists_index, and_imp]
      rintro x a b _ rfl
      simp [JVal.bindable]
    unfold deleteBindings
    simp only [JVal.iterList, List.map_cons, List.isEmpty_cons, h2]
    simp [hc1, hc2, hc3, List.all_map, List.any_map, JVal.bindable, List.map_map,
      Function.comp_def, List.all_append, List.headD_cons, List.drop_one,
      List.tail_cons]
    refine ⟨?_, ?_⟩ <;> (rintro x a b _ rfl; rfl)

/-- C1: evaluation of the response hook at a concrete failing input. The
response with status 200 and body `status OK` acknowledges exactly the sent
batch, the pairs `(A, 1)` and `(B, 2)`, yet the twin IN-list DELETE of
`Shipper._reqdone` also removes the spool row with `config_id = A` and
`stamp = 2`: a row whose config_id comes from one acknowledged pair and whose
stamp comes from a different acknowledged pair, and which no response ever
enumerated. -/
theorem reqdone_deletes_unacknowledged_row :
    (reqdone
        { table := [{ stamp := "1", config_id := "A", stream := "s", result := "r1" },
                    { stamp := "2", config_id := "B", stream := "s", result := "r2" },
                    { stamp := "2", config_id := "A", stream := "s", result := "r3" }]
          confails := 1 }
        [("A", "1"), ("B", "2")]
        { status_code := 200
          body := BodyParse.json (JVal.obj [("status", JVal.str "OK")]) }) =
      { state := { table := [], confails := 1 }
        logs := [LogEvent.dataSent]
        exn := none }
    ∧ ("A", "2") ∉ [("A", "1"), ("B", "2")] := by
  decide

/-- C2 counterexample: with the spool holding exactly the two batch rows, a
200 response whose body is the partial-ack shape
`status ERROR_PARTIAL_STORE, reason [[A, 1]]` should, per the claim, delete
only the pair `(A, 1)` and leave the row `(2, B)` in place; the hook instead
treats the body as a full acknowledgement (its partial-ack key is
`Not_all_saved`) and deletes the whole batch, so the row `(2, B)` is gone. -/
theorem reqdone_error_partial_store_counterexample :
    (reqdone
        { table := [{ stamp := "1", config_id := "A", stream := "s", result := "r1" },
                    { stamp := "2", config_id := "B", stream := "s", result := "r2" }]
          confails := 1 }
        [("A", "1"), ("B", "2")]
        { status_code := 200
          body := BodyParse.json (JVal.obj
            [("status", JVal.str "ERROR_PARTIAL_STORE"),
             ("reason", JVal.arr [JVal.arr [JVal.str "A", JVal.str "1"]])]) }).state.table = []
    ∧ ({ stamp := "2", config_id := "B", stream := "s", result := "r2" } : SpoolRow) ∉
        (reqdone
          { table := [{ stamp := "1", config_id := "A", stream := "s", result := "r1" },
                      { stamp := "2", config_id := "B", stream := "s", result := "r2" }]
            confails := 1 }
          [("A", "1"), ("B", "2")]
          { status_code := 200
            body := BodyParse.json (JVal.obj
              [("status", JVal.str "ERROR_PARTIAL_STORE"),
               ("reason", JVal.arr [JVal.arr [JVal.str "A", JVal.str "1"]])]) }).state.table := by
  decide

/-- C2 (amended): on statuses 200 and 400 the hook parses the body as JSON.
A body that is not JSON logs an error and deletes nothing. A JSON body whose
`status` field equals `Not_all_saved` switches the delete set to the pairs
under its `data` field; any other JSON body with a `status` field keeps the
whole sent batch as the delete set; a JSON body without a subscriptable
`status` field raises an uncaught KeyError or TypeError and deletes nothing.
The DELETE itself removes every row whose config_id matches some delete-set
config_id and whose stamp matches some delete-set stamp (the cross product,
not only the exact pairs). -/
theorem reqdone_ack_semantics (st : ShipperState) (pairs : List (String × String))
    (v : JVal) (code : ℕ) (hcode : code = 200 ∨ code = 400) :
    (reqdone st pairs { status_code := code, body := BodyParse.invalid } =
      { state := { table := st.table, confails := 1 }
        logs := (if code = 200 then [LogEvent.dataSent] else [LogEvent.sendingError])
          ++ [LogEvent.receivedDataInvalid]
        exn := none })
    ∧ (∀ d ids stamps,
        v.getItem "status" = Except.ok (JVal.str "Not_all_saved") →
        v.getItem "data" = Except.ok d →
        deleteBindings d = Except.ok (ids, stamps) →
        reqdone st pairs { status_code := code, body := BodyParse.json v } =
          { state := { table := deleteRows st.table ids stamps, confails := 1 }
            logs := if code = 200 then [LogEvent.dataSent] else [LogEvent.sendingError]
            exn := none })
    ∧ (∀ sv,
        v.getItem "status" = Except.ok sv →
        sv.isStr "Not_all_saved" = false →
        pairs ≠ [] →
        reqdone st pairs { status_code := code, body := BodyParse.json v } =
          { state :=
              { table := deleteRows st.table (pairs.map fun p => JVal.str p.1)
                  (pairs.map fun p => JVal.str p.2),
                confails := 1 },
            logs := if code = 200 then [LogEvent.dataSent] else [LogEvent.sendingError],
            exn := none })
    ∧ (∀ e, v.getItem "status" = Except.error e →
        reqdone st pairs { status_code := code, body := BodyParse.json v } =
          { state := { table := st.table, confails := 1 }
            logs := if code = 200 then [LogEvent.dataSent] else [LogEvent.sendingError]
            exn := some e }) := by
  refine ⟨?_, ?_, ?_, ?_⟩
  · obtain rfl | rfl := hcode <;> simp [reqdone]
  · intro d ids stamps hs hd hb
    obtain rfl | rfl := hcode <;> simp [reqdone, hs, hd, hb, JVal.isStr]
  · intro sv hs hfalse hne
    obtain rfl | rfl := hcode <;>
      simp [reqdone, hs, hfalse, deleteBindings_batch pairs hne]
  · intro e he
    obtain rfl | rfl := hcode <;> simp [reqdone, he]

/-- C2 witness: the amended theorem applied at a concrete partial
acknowledgement with status 400, delete set `[(A, 1)]`. -/
theorem reqdone_ack_semantics_witness :
    reqdone
        { table := [{ stamp := "1", config_id := "A", stream := "s", result := "w1" },
                    { stamp := "2", config_id := "B", stream := "s", result := "w2" }]
          confails := 7 }
        [("A", "1"), ("B", "2")]
        { status_code := 400
          body := BodyParse.json (JVal.obj
            [("status", JVal.str "Not_all_saved"),
             ("data", JVal.arr [JVal.arr [JVal.str "A", JVal.str "1"]])]) } =
      { state :=
          { table := [{ stamp := "2", config_id := "B", stream := "s", result := "w2" }],
            confails := 1 },
        logs := [LogEvent.sendingError],
        exn := none } := by
  have h := (reqdone_ack_semantics
    { table := [{ stamp := "1", config_id := "A", stream := "s", result := "w1" },
                { stamp := "2", config_id := "B", stream := "s", result := "w2" }]
      confails := 7 }
    [("A", "1"), ("B", "2")]
    (JVal.obj [("status", JVal.str "Not_all_saved"),
               ("data", JVal.arr [JVal.arr [JVal.str "A", JVal.str "1"]])])
    400 (Or.inr rfl)).2.1
    (JVal.arr [JVal.arr [JVal.str "A", JVal.str "1"]])
    [JVal.str "A"] [JVal.str "1"] rfl rfl rfl
  rw [h]
  decide

/-- C3: a status 0 response (no connection) only advances `_confails` by one,
clamped so that it never exceeds 200, emits the connection-failed log, raises
nothing and leaves the spool table untouched; folding the hook over any
sequence of consecutive status 0 responses keeps the table unchanged and
drives the counter to `min (initial + n) 200`. -/
theorem reqdone_status0_confails (st : ShipperState)
    (pairs : List (String × String)) (body : BodyParse)
    (steps : List (List (String × String) × BodyParse))
    (hst : st.confails ≤ 200) :
    reqdone st pairs { status_code := 0, body := body } =
      { state := { table := st.table, confails := min (st.confails + 1) 200 }
        logs := [LogEvent.connectionFailed]
        exn := none }
    ∧ reqdoneZeroFold st steps =
      { table := st.table, confails := min (st.confails + steps.length) 200 } := by
  constructor
  · simp [reqdone]
  · induction steps generalizing st with
    | nil =>
      cases st with
      | mk table confails =>
        simp only [reqdoneZeroFold, List.foldl_nil, List.length_nil, Nat.add_zero,
          ShipperState.mk.injEq]
        simp only at hst
        exact ⟨trivial, by omega⟩
    | cons s rest ih =>
      have hstep : (reqdone st s.1 { status_code := 0, body := s.2 }).state =
          { table := st.table, confails := min (st.confails + 1) 200 } := by
        simp [reqdone]
      have h1 : reqdoneZeroFold st (s :: rest) =
          reqdoneZeroFold { table := st.table, confails := min (st.confails + 1) 200 } rest := by
        simp [reqdoneZeroFold, hstep]
      rw [h1, ih _ (min_le_right _ _)]
      simp only [List.length_cons, ShipperState.mk.injEq]
      exact ⟨trivial, by omega⟩

/-- C3 witness: the status 0 theorem applied to a concrete state, one direct
invocation and a two-step sequence. -/
theorem reqdone_status0_confails_witness :
    reqdone { table := [], confails := 199 } [("A", "1")]
        { status_code := 0, body := BodyParse.invalid } =
      { state := { table := [], confails := 200 }
        logs := [LogEvent.connectionFailed]
        exn := none }
    ∧ reqdoneZeroFold { table := [], confails := 199 }
        [([("A", "1")], BodyParse.invalid), ([("A", "1")], BodyParse.invalid)] =
      { table := [], confails := 200 } := by
  have h := reqdone_status0_confails { table := [], confails := 199 } [("A", "1")]
    BodyParse.invalid [([("A", "1")], BodyParse.invalid), ([("A", "1")], BodyParse.invalid)]
    (by norm_num)
  exact ⟨h.1.trans (by decide), h.2.trans (by decide)⟩

/-- C6 counterexample: starting from the initial sleeptime 1.0, the batch size
trace 250, 250, 250, 0 leaves the Shipper at sleeptime 0.6; the next two
consecutive cycles both fetch 0 rows (so their sizes a = 0 and b = 0 satisfy
a ≤ b), yet the sleeptime after the second of them, 0.8 after the trace
250, 250, 250, 0, 0, is strictly greater than the 0.6 in effect after the
first, refuting the claimed monotonicity. -/
theorem sleeptime_consecutive_counterexample :
    sleepAfter [250, 250, 250, 0] = 3/5
    ∧ sleepAfter [250, 250, 250, 0, 0] = 4/5
    ∧ (0 : ℕ) ≤ 0
    ∧ ¬ sleepAfter [250, 250, 250, 0, 0] ≤ sleepAfter [250, 250, 250, 0] := by
  refine ⟨?_, ?_, le_refl 0, ?_⟩ <;>
    norm_num [sleepAfter, adjustSleeptime, List.foldl]

/-- C6 (amended): for a fixed pre-adjustment sleeptime drawn from the grid
0.2, 0.4, 0.6, 0.8, 1.0, the adjusted sleeptime is antitone in the fetched
batch size: sizes a ≤ b give an adjustment for b no larger than the adjustment
for a; and every adjustment stays on the grid, hence within the closed range
0.2 to 1.0. -/
theorem adjustSleeptime_antitone (s : ℚ) (a b : ℕ)
    (hs : s ∈ sleepGrid) (hab : a ≤ b) :
    adjustSleeptime s b ≤ adjustSleeptime s a
    ∧ adjustSleeptime s b ∈ sleepGrid
    ∧ 1/5 ≤ adjustSleeptime s b ∧ adjustSleeptime s b ≤ 1 := by
  fin_cases hs <;>
    (unfold adjustSleeptime sleepGrid; split_ifs <;>
      first
        | omega
        | norm_num)

/-- C6 witness: the antitone theorem applied at sleeptime 1.0 with batch
sizes 170 and 250. -/
theorem adjustSleeptime_antitone_witness :
    adjustSleeptime 1 250 ≤ adjustSleeptime 1 170
    ∧ adjustSleeptime 1 250 ∈ sleepGrid
    ∧ 1/5 ≤ adjustSleeptime 1 250 ∧ adjustSleeptime 1 250 ≤ 1 :=
  adjustSleeptime_antitone 1 170 250 (by norm_num [sleepGrid]) (by omega)

/-- Outcome of one attempt of `Agent._is_time_synchronized` to fetch `/time`
from the collector. `failed` covers the caught exception paths, a connection
error, an assertion error or an out-of-range timestamp, after which the loop
sleeps and retries; `fetched` is an HTTP 200 response carrying a parseable
in-range collector timestamp; `raiseUncaught` is a reachable response with a
non-200 status or a malformed JSON body, which raises StatusCodeException or
ValueError uncaught, aborting the precheck and `run` with it. -/
inductive TimeFetch where
  | failed
  | fetched (collector_time : ℤ)
  | raiseUncaught
deriving DecidableEq

/-- Exceptions that can escape `Agent._is_time_synchronized`. -/
inductive AgentExn where
  | connectionExn
  | uncaughtExn
deriving DecidableEq

/-- The attempt loop of `Agent._is_time_synchronized`: the first attempt that
fetches a collector time decides the result as `|collector − agent| <
time_diff`; caught failures move to the next attempt; when the attempts run
out a ConnectionException is raised. Instants and the bound are integers
(milliseconds). -/
def timeSyncGo (time_diff agent_now : ℤ) : List TimeFetch → Except AgentExn Bool
  | [] => Except.error AgentExn.connectionExn
  | TimeFetch.failed :: rest => timeSyncGo time_diff agent_now rest
  | TimeFetch.fetched t :: _ => Except.ok (decide (|t - agent_now| < time_diff))
  | TimeFetch.raiseUncaught :: _ => Except.error AgentExn.uncaughtExn

/-- Embedding of `Agent._is_time_synchronized`: the `xrange(5)` loop performs
at most 5 attempts; `attempts` lists the outcome the collector produces for
each attempt (a list shorter than 5 stands for a run whose remaining attempts
all fail). -/
def is_time_synchronized (time_diff agent_now : ℤ) (attempts : List TimeFetch) :
    Except AgentExn Bool :=
  timeSyncGo time_diff agent_now (attempts.take 5)

/-- The observable outcome of `Agent.run` with respect to the clock precheck:
the running flag when run returns, the internal processes started, and the
spool contents, which `run` never touches before or during the precheck. The
supervision loop that follows a successful precheck is outside this model and
summarised by the started process list. -/
structure RunOutcome where
  running : Bool
  started : List String
  spool : List SpoolRow
deriving DecidableEq

/-- Embedding of the precheck gate at the top of `Agent.run`: when
`_is_time_synchronized` returns false, run logs an error, clears the running
flag and returns before `_start_subprocess` runs for the Receiver, the
Shipper or any sensor; when it returns true, run proceeds to start the
Receiver and the Shipper; an exception from the precheck propagates. -/
def agentRun (time_diff agent_now : ℤ) (attempts : List TimeFetch)
    (spool : List SpoolRow) : Except AgentExn RunOutcome :=
  match is_time_synchronized time_diff agent_now attempts with
  | Except.error e => Except.error e
  | Except.ok false => Except.ok { running := false, started := [], spool := spool }
  | Except.ok true =>
    Except.ok { running := true, started := ["Receiver", "Shipper"], spool := spool }

/-- C5: when some attempt among the first five fetches a collector time, every
fetched collector time differs from the agent time by at least the bound, and
no attempt aborts with an uncaught exception, `run` returns with the running
flag cleared, no Receiver, Shipper or sensor process started, and the spool
unchanged. -/
theorem run_refuses_on_clock_skew (time_diff agent_now : ℤ)
    (attempts : List TimeFetch) (spool : List SpoolRow)
    (hall : ∀ t, TimeFetch.fetched t ∈ attempts.take 5 → time_diff ≤ |t - agent_now|)
    (hsome : ∃ t, TimeFetch.fetched t ∈ attempts.take 5)
    (hnoraise : TimeFetch.raiseUncaught ∉ attempts.take 5) :
    agentRun time_diff agent_now attempts spool =
      Except.ok { running := false, started := [], spool := spool } := by
  have hsync : is_time_synchronized time_diff agent_now attempts = Except.ok false := by
    unfold is_time_synchronized
    generalize attempts.take 5 = l at hall hsome hnoraise
    induction l with
    | nil => exact absurd hsome (by simp)
    | cons f rest ih =>
      cases f with
      | failed =>
        have hsome2 : ∃ t, TimeFetch.fetched t ∈ rest := by
          obtain ⟨t, ht⟩ := hsome
          exact ⟨t, by simpa using ht⟩
        exact ih (fun t ht => hall t (List.mem_cons_of_mem _ ht)) hsome2
          (fun hmem => hnoraise (List.mem_cons_of_mem _ hmem))
      | fetched t =>
        have := hall t (List.mem_cons_self _ _)
        simp [timeSyncGo, decide_eq_false (not_lt.mpr this)]
      | raiseUncaught => exact absurd (List.mem_cons_self _ _) hnoraise
  unfold agentRun
  rw [hsync]

/-- C5 witness: the clock skew theorem at the concrete scenario of the spec,
a collector 720000 milliseconds ahead of the agent against the default bound
of 600000 milliseconds. -/
theorem run_refuses_on_clock_skew_witness :
    agentRun 600000 0 [TimeFetch.failed, TimeFetch.fetched 720000] [] =
      Except.ok { running := false, started := [], spool := [] } :=
  run_refuses_on_clock_skew 600000 0 [TimeFetch.failed, TimeFetch.fetched 720000] []
    (by intro t ht; simp at ht; subst ht; decide)
    ⟨720000, by simp⟩
    (by simp)

/-- Python `int.bit_length`: the number of bits needed to represent the
absolute value of the integer, zero for zero; `Nat.size` computes exactly
this on the absolute value. -/
def pyBitLength (z : ℤ) : ℕ := z.natAbs.size

/-- The two error classes of `whmonit/common/time.py`. -/
inductive TimeCheckErr where
  | rangeError
  | typeError
deriving DecidableEq

/-- Python scalar inputs to `check_millisecond_timestamp`: integers pass the
`isinstance(timestamp, (int, long))` test, floats and strings do not. -/
inductive PyScalar where
  | int (z : ℤ)
  | float (q : ℚ)
  | str (s : String)
deriving DecidableEq

/-- Embedding of `check_millisecond_timestamp` (`whmonit/common/time.py`):
non-integers raise MillisecondTimestampTypeError, integers whose
`bit_length()` exceeds 64 raise MillisecondTimestampRangeError, every other
integer is returned unchanged. -/
def check_millisecond_timestamp : PyScalar → Except TimeCheckErr ℤ
  | PyScalar.int z =>
    if pyBitLength z > 64 then Except.error TimeCheckErr.rangeError else Except.ok z
  | PyScalar.float _ => Except.error TimeCheckErr.typeError
  | PyScalar.str _ => Except.error TimeCheckErr.typeError

/-- C7: evaluation of `check_millisecond_timestamp` at the boundary. The
integer `2 ^ 63` lies outside the signed 64-bit range, yet its `bit_length()`
is 64, so the function returns it unchanged instead of raising; the bound the
code enforces only rejects magnitudes of 2 ^ 64 and above, while non-integer
inputs do raise the type error as documented. -/
theorem check_millisecond_timestamp_boundary :
    check_millisecond_timestamp (PyScalar.int (2 ^ 63)) = Except.ok (2 ^ 63)
    ∧ ¬ ((2 : ℤ) ^ 63 < 2 ^ 63)
    ∧ check_millisecond_timestamp (PyScalar.int (2 ^ 64)) =
        Except.error TimeCheckErr.rangeError
    ∧ check_millisecond_timestamp (PyScalar.float 3) =
        Except.error TimeCheckErr.typeError := by
  have hA : ((2 : ℤ) ^ 63).natAbs = 2 ^ 63 := by
    rw [Int.natAbs_pow]
    norm_num
  have hB : ((2 : ℤ) ^ 64).natAbs = 2 ^ 64 := by
    rw [Int.natAbs_pow]
    norm_num
  refine ⟨?_, by norm_num, ?_, rfl⟩
  · simp only [check_millisecond_timestamp, pyBitLength, hA, Nat.size_pow]
    norm_num
  · simp only [check_millisecond_timestamp, pyBitLength, hB, Nat.size_pow]
    norm_num

/-- Primitive datatypes a stream declaration can name. Modelled from the
spec: the registry module (`whmonit/common/types.py`, the
`PRIMITIVE_TYPE_REGISTRY` that `is_valid_type` consults) is not among the
sources; the spec describes a closed primitive registry holding bool, float,
string, datetime and similar members. `other` stands for any class outside
the registry. -/
inductive Prim where
  | bool
  | float
  | str
  | datetime
  | other (name : String)
deriving DecidableEq

/-- Membership in the primitive registry, the `is_valid_type` test. -/
def registered : Prim → Bool
  | Prim.other _ => false
  | _ => true

/-- Python runtime values a sensor may hand to `send_results`; `inst` is an
instance of a class outside the modelled primitive set. -/
inductive PyVal where
  | bool (b : Bool)
  | float (q : ℚ)
  | str (s : String)
  | datetime (ms : ℤ)
  | inst (cls : String) (payload : String)
deriving DecidableEq

/-- The `isinstance(output, stream_type)` test between a runtime value and a
declared primitive. -/
def isinstanceOf (v : PyVal) (p : Prim) : Bool :=
  match v, p with
  | PyVal.bool _, Prim.bool => true
  | PyVal.float _, Prim.float => true
  | PyVal.str _, Prim.str => true
  | PyVal.datetime _, Prim.datetime => true
  | PyVal.inst c _, Prim.other n => c = n
  | _, _ => false

/-- Stream declarations of a sensor kind together with the implicit `error`
stream of type str that `SensorBaseMeta.__init__` adds to every concrete
sensor class. -/
def withErrorStream (declared : List (String × Prim)) : List (String × Prim) :=
  declared ++ [("error", Prim.str)]

/-- The three `InvalidDataError` reasons of `SensorBase.send_results`, in
source order of their checks. -/
inductive InvalidDataReason where
  | unknownStream (stream : String)
  | datatypeMismatch (stream : String)
  | notPrimitive (stream : String)
deriving DecidableEq

/-- The validation loop of `SensorBase.send_results`
(`whmonit/client/sensors/base.py`): for every `(stream, output)` pair of the
batch, the stream must be declared in the streams map, the output must be an
instance of the declared type, and the declared type must be a registered
primitive; the first failing pair raises `InvalidDataError`. Only when every
pair passes is `do_send_results` called with the whole batch. -/
def validateData (streams : List (String × Prim)) :
    List (String × PyVal) → Option InvalidDataReason
  | [] => none
  | (stream, output) :: rest =>
    match streams.lookup stream with
    | none => some (InvalidDataReason.unknownStream stream)
    | some ty =>
      if ¬ isinstanceOf output ty then
        some (InvalidDataReason.datatypeMismatch stream)
      else if ¬ registered ty then
        some (InvalidDataReason.notPrimitive stream)
      else
        validateData streams rest

/-- One message on the worker-to-receiver queue, as built by
`Sensor.send_results` in `whmonit/client/agent.py`. -/
structure QueueMsg where
  config_id : String
  data : PyVal
  datatype : Prim
  timestamp : ℤ
  stream_name : String
deriving DecidableEq

/-- The enqueueing callback `Sensor.send_results` (`whmonit/client/agent.py`):
one queue message per `(stream, output)` pair, its datatype read from the
streams map of the sensor class. It performs no checks of its own; it is
reached through the validating wrapper, so the lookup succeeds (the default
never surfaces on validated data). -/
def enqueueMsgs (config_id : String) (streams : List (String × Prim))
    (timestamp : ℤ) (data : List (String × PyVal)) : List QueueMsg :=
  data.map fun p =>
    { config_id := config_id
      data := p.2
      datatype := (streams.lookup p.1).getD (Prim.other "KeyError")
      timestamp := timestamp
      stream_name := p.1 }

/-- What the worker run leaves behind: the queue messages it enqueued, the
`InvalidDataError` messages logged through the process logger, and how many
sensor ticks were fully processed before the run method returned. -/
structure WorkerResult where
  queue : List QueueMsg
  logged : List InvalidDataReason
  runsProcessed : ℕ
deriving DecidableEq

/-- The TaskSensor path of `Sensor.run` (`whmonit/client/agent.py`): each tick
runs the sensor, whose results pass through `SensorBase.send_results`; a
raised `InvalidDataError` propagates out of the while loop, is caught by the
handler at the bottom of `Sensor.run`, logged through the process logger
(`self.log.error`), and the run method returns, ending the worker process.
`runs` lists the `(timestamp, results)` of the successive sensor ticks. -/
def workerRun (config_id : String) (streams : List (String × Prim)) :
    List (ℤ × List (String × PyVal)) → WorkerResult
  | [] => { queue := [], logged := [], runsProcessed := 0 }
  | (ts, data) :: rest =>
    match validateData streams data with
    | some e => { queue := [], logged := [e], runsProcessed := 0 }
    | none =>
      let out := workerRun config_id streams rest
      { queue := enqueueMsgs config_id streams ts data ++ out.queue
        logged := out.logged
        runsProcessed := out.runsProcessed + 1 }

/-- C4 counterexample: a sensor whose declared streams are `temp : float`
emits a result on an undeclared stream and, on its next tick, a valid result.
The claim requires a report on the error stream and the worker to keep
processing; instead the worker enqueues nothing at all (no error-stream
message in particular), logs the failure through the process logger, and
stops before the second tick. -/
theorem worker_validation_counterexample :
    workerRun "cid" (withErrorStream [("temp", Prim.float)])
        [(0, [("bogus", PyVal.str "x")]), (1, [("temp", PyVal.float 1)])] =
      { queue := []
        logged := [InvalidDataReason.unknownStream "bogus"]
        runsProcessed := 0 }
    ∧ ¬ ((∃ m ∈ (workerRun "cid" (withErrorStream [("temp", Prim.float)])
            [(0, [("bogus", PyVal.str "x")]), (1, [("temp", PyVal.float 1)])]).queue,
          m.stream_name = "error")
        ∧ (workerRun "cid" (withErrorStream [("temp", Prim.float)])
            [(0, [("bogus", PyVal.str "x")]), (1, [("temp", PyVal.float 1)])]).runsProcessed
          = 2) := by
  decide

/-- Soundness of the validation loop: when it accepts a batch, every pair of
the batch names a declared stream, carries a value of the declared type, and
the declared type is registered. -/
theorem validateData_none_sound (streams : List (String × Prim))
    (data : List (String × PyVal)) (h : validateData streams data = none) :
    ∀ p ∈ data, ∃ ty, streams.lookup p.1 = some ty
      ∧ isinstanceOf p.2 ty = true ∧ registered ty = true := by
  induction data with
  | nil => intro p hp; exact absurd hp (List.not_mem_nil p)
  | cons q rest ih =>
    intro p hp
    obtain ⟨s, v⟩ := q
    unfold validateData at h
    cases hl : streams.lookup s with
    | none => rw [hl] at h; exact absurd h (by simp)
    | some ty =>
      rw [hl] at h
      by_cases hi : isinstanceOf v ty
      · by_cases hr : registered ty
        · simp only [hi, hr, not_true_eq_false, if_false] at h
          rcases List.mem_cons.mp hp with rfl | hmem
          · exact ⟨ty, hl, hi, hr⟩
          · exact ih h p hmem
        · simp [hi, hr] at h
      · simp [hi] at h

/-- C4 (amended): the worker validates before enqueueing, so every enqueued
message names a declared stream whose declared registered primitive matches
the runtime value (and the recorded datatype is that primitive); when no
tick fails validation every tick is processed; and a failing tick enqueues
nothing, is logged exactly once through the process logger, and ends the run
before the remaining ticks, which are not processed. -/
theorem worker_validation_semantics (config_id : String)
    (streams : List (String × Prim)) (runs : List (ℤ × List (String × PyVal))) :
    (∀ m ∈ (workerRun config_id streams runs).queue,
      ∃ ty, streams.lookup m.stream_name = some ty
        ∧ isinstanceOf m.data ty = true ∧ registered ty = true
        ∧ m.datatype = ty)
    ∧ ((workerRun config_id streams runs).logged = [] →
        (workerRun config_id streams runs).runsProcessed = runs.length)
    ∧ (∀ e, (workerRun config_id streams runs).logged = [e] →
        (workerRun config_id streams runs).runsProcessed < runs.length
        ∧ (workerRun config_id streams runs).queue =
            (workerRun config_id streams
              (runs.take (workerRun config_id streams runs).runsProcessed)).queue) := by
  induction runs with
  | nil =>
    refine ⟨?_, fun _ => rfl, ?_⟩
    · intro m hm; exact absurd hm (by simp [workerRun])
    · intro e he; exact absurd he (by simp [workerRun])
  | cons r rest ih =>
    obtain ⟨ts, data⟩ := r
    cases hv : validateData streams data with
    | some err =>
      refine ⟨?_, ?_, ?_⟩
      · intro m hm
        simp only [workerRun, hv] at hm
        exact absurd hm (List.not_mem_nil m)
      · intro hlog
        simp only [workerRun, hv] at hlog
        exact absurd hlog (by simp)
      · intro e he
        constructor
        · simp [workerRun, hv]
        · simp [workerRun, hv]
    | none =>
      have hsound := validateData_none_sound streams data hv
      refine ⟨?_, ?_, ?_⟩
      · intro m hm
        simp only [workerRun, hv, List.mem_append] at hm
        rcases hm with hm | hm
        · simp only [enqueueMsgs, List.mem_map] at hm
          obtain ⟨p, hp, rfl⟩ := hm
          obtain ⟨ty, hl, hi, hr⟩ := hsound p hp
          exact ⟨ty, hl, hi, hr, by simp [hl]⟩
        · exact ih.1 m hm
      · intro hlog
        simp only [workerRun, hv] at hlog ⊢
        rw [ih.2.1 hlog]
        simp
      · intro e he
        simp only [workerRun, hv] at he
        obtain ⟨hlt, hq⟩ := ih.2.2 e he
        constructor
        · simp only [workerRun, hv, List.length_cons]
          omega
        · simp only [workerRun, hv, List.take_succ_cons]
          rw [hq]

/-- C4 witness: the amended theorem applied to a sensor with one valid tick,
showing the full-processing conclusion at a concrete input. -/
theorem worker_validation_semantics_witness :
    (workerRun "cid" (withErrorStream [("temp", Prim.float)])
      [(5, [("temp", PyVal.float 2)])]).runsProcessed =
      ([(5, [("temp", PyVal.float 2)])] : List (ℤ × List (String × PyVal))).length :=
  (worker_validation_semantics "cid" (withErrorStream [("temp", Prim.float)])
    [(5, [("temp", PyVal.float 2)])]).2.1 (by decide)

/-- The Python value `cursor.fetchone()` returns for the sensorstorage
select in `StorageManager.get_storage`: `None` when no row matches the name,
otherwise the one-element row tuple holding the value TEXT. -/
inductive FetchedRow where
  | noRow
  | rowTuple (value : String)
deriving DecidableEq

/-- Python stdlib `json.loads` applied to the fetchone result, as the source
does without unwrapping the row tuple. `json.loads` accepts only strings (or
buffers); both `None` and a one-element tuple raise `TypeError` before the
contained text is ever examined. -/
def jsonLoadsFetched : FetchedRow → Except PyExn JVal
  | FetchedRow.noRow => Except.error PyExn.typeError
  | FetchedRow.rowTuple _ => Except.error PyExn.typeError

/-- Embedding of the first access path of `StorageManager.get_storage`
(`whmonit/client/agent.py`, name not in the in-memory cache): select the row
for the name, apply `json.loads` to the raw fetchone result, fall back to the
empty dict on any exception (the bare `except Exception`), and return a
manager dict with those contents. `row` is the value TEXT of the sensorstorage
row for the name, when one exists. -/
def getStorageFresh (row : Option String) : List (String × JVal) :=
  let fetched := match row with
    | none => FetchedRow.noRow
    | some v => FetchedRow.rowTuple v
  match jsonLoadsFetched fetched with
  | Except.ok (JVal.obj fields) => fields
  | Except.ok _ => []
  | Except.error _ => []

/-- C9: evaluation of the first-access path of `get_storage` at every input.
Because `json.loads` is applied to the fetchone row tuple rather than to the
value string inside it, the load raises `TypeError` for every stored value,
the bare except resets the storage, and the returned map is empty even when a
row exists and its value text is well-formed JSON. -/
theorem get_storage_always_resets (row : String) :
    getStorageFresh (some row) = [] ∧ getStorageFresh none = [] :=
  ⟨rfl, rfl⟩

/-- A sensor descriptor of the configuration document
(`Agent.save_config` schema): the five required fields, with the `config`
payload opaque to the schema beyond being an object. -/
structure SensorDesc where
  sensor : String
  config_id : String
  target : String
  target_id : String
  config : List (String × String)
deriving DecidableEq

/-- The jsonschema validation of `Agent.save_config`: every descriptor field
list is fixed by the `SensorDesc` shape (required fields, no additional
properties), the four identifier strings have minLength 2, and the descriptor
array has uniqueItems. -/
def configValid (sensors : List SensorDesc) : Bool :=
  (sensors.all fun d => 2 ≤ d.sensor.length && 2 ≤ d.config_id.length
      && 2 ≤ d.target.length && 2 ≤ d.target_id.length)
    && decide sensors.Nodup

/-- The `intern_sensors` record of the Agent: config ids of the reserved
`_error` and `_conf_applied` sensor kinds. -/
structure InternSensors where
  error_id : Option String
  config_applied_id : Option String
deriving DecidableEq

/-- The reserved-kind extraction loop of `Agent.save_config`: iterate over a
copy of the descriptor list; an `_error` descriptor stores its config_id as
the error id and is removed from the live list, `_conf_applied` likewise for
the conf-applied id. `List.erase` matches Python `list.remove`, deleting the
first equal element. -/
def filterIntern : List SensorDesc → List SensorDesc → InternSensors →
    List SensorDesc × InternSensors
  | [], cur, intern => (cur, intern)
  | d :: todo, cur, intern =>
    if d.sensor = "_error" then
      filterIntern todo (cur.erase d) { intern with error_id := some d.config_id }
    else if d.sensor = "_conf_applied" then
      filterIntern todo (cur.erase d) { intern with config_applied_id := some d.config_id }
    else
      filterIntern todo cur intern

/-- The configuration state `Agent.save_config` reads and writes: the active
`agentconfig` sensors, the YAML configuration file on disk (`none` when
absent) and the `intern_sensors` record. -/
structure AgentConfigState where
  agentconfig : List SensorDesc
  configfile : Option (List SensorDesc)
  intern : InternSensors
deriving DecidableEq

/-- Embedding of `Agent.save_config`: validate the document, extract the
reserved kinds into `intern_sensors`, install the remaining descriptors as
the active configuration and write them to the YAML file; an invalid document
is logged and leaves the state unchanged. (The `_conf_applied` notification
request does not touch the configuration state.) -/
def save_config (st : AgentConfigState) (sensors : List SensorDesc) :
    AgentConfigState :=
  if configValid sensors then
    let fi := filterIntern sensors sensors st.intern
    { agentconfig := fi.1, configfile := some fi.1, intern := fi.2 }
  else
    st

/-- Embedding of `Agent.load_config`: read the YAML configuration file (an
absent file reads as the empty sensors list) and apply it through
`save_config`. -/
def load_config (st : AgentConfigState) : AgentConfigState :=
  save_config st (st.configfile.getD [])

/-- Embedding of the apply step of `Agent.get_remote_config`: the fetched
document goes through `save_config`. -/
def get_remote_config (st : AgentConfigState) (remote : List SensorDesc) :
    AgentConfigState :=
  save_config st remote

/-- A descriptor of one of the two reserved sensor kinds. -/
def reservedKind (d : SensorDesc) : Prop :=
  d.sensor = "_error" ∨ d.sensor = "_conf_applied"

/-- The extraction loop removes every reserved-kind descriptor: if the live
list has no duplicates and each of its reserved-kind members still awaits
processing, none survives. -/
theorem filterIntern_no_reserved (todo : List SensorDesc) :
    ∀ cur intern, cur.Nodup → (∀ d ∈ cur, reservedKind d → d ∈ todo) →
      ∀ d ∈ (filterIntern todo cur intern).1, ¬ reservedKind d := by
  induction todo with
  | nil =>
    intro cur intern _ hsub d hd hres
    exact absurd (hsub d hd hres) (List.not_mem_nil d)
  | cons x todo ih =>
    intro cur intern hnd hsub
    by_cases hx : x.sensor = "_error"
    · rw [filterIntern, if_pos hx]
      refine ih (cur.erase x) _ (hnd.erase x) ?_
      intro d hd hres
      have hdcur : d ∈ cur := List.mem_of_mem_erase hd
      have hne : d ≠ x := ((List.Nodup.mem_erase_iff hnd).mp hd).1
      rcases List.mem_cons.mp (hsub d hdcur hres) with rfl | hmem
      · exact absurd rfl hne
      · exact hmem
    · by_cases hx2 : x.sensor = "_conf_applied"
      · rw [filterIntern, if_neg hx, if_pos hx2]
        refine ih (cur.erase x) _ (hnd.erase x) ?_
        intro d hd hres
        have hdcur : d ∈ cur := List.mem_of_mem_erase hd
        have hne : d ≠ x := ((List.Nodup.mem_erase_iff hnd).mp hd).1
        rcases List.mem_cons.mp (hsub d hdcur hres) with rfl | hmem
        · exact absurd rfl hne
        · exact hmem
      · rw [filterIntern, if_neg hx, if_neg hx2]
        refine ih cur _ hnd ?_
        intro d hd hres
        rcases List.mem_cons.mp (hsub d hd hres) with rfl | hmem
        · rcases hres with h | h
          · exact absurd h hx
          · exact absurd h hx2
        · exact hmem

/-- When no `_error` descriptor awaits processing, the extraction loop leaves
the error id untouched; likewise for `_conf_applied` and the conf-applied
id. -/
theorem filterIntern_keeps_ids (todo : List SensorDesc) :
    ∀ cur intern,
      ((∀ d ∈ todo, d.sensor ≠ "_error") →
        (filterIntern todo cur intern).2.error_id = intern.error_id)
      ∧ ((∀ d ∈ todo, d.sensor ≠ "_conf_applied") →
        (filterIntern todo cur intern).2.config_applied_id =
          intern.config_applied_id) := by
  induction todo with
  | nil => intro cur intern; exact ⟨fun _ => rfl, fun _ => rfl⟩
  | cons x todo ih =>
    intro cur intern
    constructor
    · intro hno
      have hx : x.sensor ≠ "_error" := hno x (List.mem_cons_self _ _)
      by_cases hx2 : x.sensor = "_conf_applied"
      · rw [filterIntern, if_neg hx, if_pos hx2]
        exact (ih _ _).1 fun d hd => hno d (List.mem_cons_of_mem _ hd)
      · rw [filterIntern, if_neg hx, if_neg hx2]
        exact (ih _ _).1 fun d hd => hno d (List.mem_cons_of_mem _ hd)
    · intro hno
      have hx2 : x.sensor ≠ "_conf_applied" := hno x (List.mem_cons_self _ _)
      by_cases hx : x.sensor = "_error"
      · rw [filterIntern, if_pos hx]
        exact (ih _ _).2 fun d hd => hno d (List.mem_cons_of_mem _ hd)
      · rw [filterIntern, if_neg hx, if_neg hx2]
        exact (ih _ _).2 fun d hd => hno d (List.mem_cons_of_mem _ hd)

/-- When some `_error` descriptor awaits processing, the loop records the
config id of one of them (the last, in source order); likewise for
`_conf_applied`. -/
theorem filterIntern_records_ids (todo : List SensorDesc) :
    ∀ cur intern,
      ((∃ d ∈ todo, d.sensor = "_error") →
        ∃ d ∈ todo, d.sensor = "_error"
          ∧ (filterIntern todo cur intern).2.error_id = some d.config_id)
      ∧ ((∃ d ∈ todo, d.sensor = "_conf_applied") →
        ∃ d ∈ todo, d.sensor = "_conf_applied"
          ∧ (filterIntern todo cur intern).2.config_applied_id =
              some d.config_id) := by
  induction todo with
  | nil =>
    intro cur intern
    constructor <;> (intro hex; exact absurd hex (by simp))
  | cons x todo ih =>
    intro cur intern
    constructor
    · intro hex
      by_cases hrest : ∃ d ∈ todo, d.sensor = "_error"
      · obtain ⟨d, hd, hds, hid⟩ :=
          (by
            by_cases hx : x.sensor = "_error"
            · rw [filterIntern, if_pos hx]; exact (ih _ _).1 hrest
            · by_cases hx2 : x.sensor = "_conf_applied"
              · rw [filterIntern, if_neg hx, if_pos hx2]; exact (ih _ _).1 hrest
              · rw [filterIntern, if_neg hx, if_neg hx2]; exact (ih _ _).1 hrest
            : ∃ d ∈ todo, d.sensor = "_error"
              ∧ (filterIntern (x :: todo) cur intern).2.error_id = some d.config_id)
        exact ⟨d, List.mem_cons_of_mem _ hd, hds, hid⟩
      · have hx : x.sensor = "_error" := by
          obtain ⟨d, hd, hds⟩ := hex
          rcases List.mem_cons.mp hd with rfl | hmem
          · exact hds
          · exact absurd ⟨d, hmem, hds⟩ hrest
        refine ⟨x, List.mem_cons_self _ _, hx, ?_⟩
        rw [filterIntern, if_pos hx]
        exact (filterIntern_keeps_ids todo _ _).1
          (fun d hd hds => hrest ⟨d, hd, hds⟩)
    · intro hex
      by_cases hrest : ∃ d ∈ todo, d.sensor = "_conf_applied"
      · obtain ⟨d, hd, hds, hid⟩ :=
          (by
            by_cases hx : x.sensor = "_error"
            · rw [filterIntern, if_pos hx]; exact (ih _ _).2 hrest
            · by_cases hx2 : x.sensor = "_conf_applied"
              · rw [filterIntern, if_neg hx, if_pos hx2]; exact (ih _ _).2 hrest
              · rw [filterIntern, if_neg hx, if_neg hx2]; exact (ih _ _).2 hrest
            : ∃ d ∈ todo, d.sensor = "_conf_applied"
              ∧ (filterIntern (x :: todo) cur intern).2.config_applied_id =
                  some d.config_id)
        exact ⟨d, List.mem_cons_of_mem _ hd, hds, hid⟩
      · have hx2 : x.sensor = "_conf_applied" := by
          obtain ⟨d, hd, hds⟩ := hex
          rcases List.mem_cons.mp hd with rfl | hmem
          · exact hds
          · exact absurd ⟨d, hmem, hds⟩ hrest
        have hx : x.sensor ≠ "_error" := by
          rw [hx2]; intro hcontra; exact absurd hcontra (by decide)
        refine ⟨x, List.mem_cons_self _ _, hx2, ?_⟩
        rw [filterIntern, if_neg hx, if_pos hx2]
        exact (filterIntern_keeps_ids todo _ _).2
          (fun d hd hds => hrest ⟨d, hd, hds⟩)

/-- C10: after every `save_config` of a valid document, neither the active
configuration nor the YAML file contains a reserved-kind descriptor, the file
holds exactly the active configuration, the reserved config ids are recorded
in `intern_sensors`, and the invariant that the active configuration holds no
reserved kind is preserved by `save_config`, `load_config` and
`get_remote_config` on any state. -/
theorem save_config_filters_reserved (st : AgentConfigState)
    (sensors : List SensorDesc) (hvalid : configValid sensors = true) :
    (∀ d ∈ (save_config st sensors).agentconfig, ¬ reservedKind d)
    ∧ (save_config st sensors).configfile = some (save_config st sensors).agentconfig
    ∧ ((∃ d ∈ sensors, d.sensor = "_error") →
        ∃ d ∈ sensors, d.sensor = "_error"
          ∧ (save_config st sensors).intern.error_id = some d.config_id)
    ∧ ((∃ d ∈ sensors, d.sensor = "_conf_applied") →
        ∃ d ∈ sensors, d.sensor = "_conf_applied"
          ∧ (save_config st sensors).intern.config_applied_id = some d.config_id)
    ∧ (∀ st2 : AgentConfigState, ∀ doc : List SensorDesc,
        (∀ d ∈ st2.agentconfig, ¬ reservedKind d) →
          (∀ d ∈ (save_config st2 doc).agentconfig, ¬ reservedKind d)
          ∧ (∀ d ∈ (load_config st2).agentconfig, ¬ reservedKind d)
          ∧ (∀ d ∈ (get_remote_config st2 doc).agentconfig, ¬ reservedKind d)) := by
  have hnodup : sensors.Nodup := by
    have := (Bool.and_eq_true _ _).mp hvalid
    exact of_decide_eq_true this.2
  have hmain : ∀ d ∈ (save_config st sensors).agentconfig, ¬ reservedKind d := by
    unfold save_config
    rw [if_pos hvalid]
    exact filterIntern_no_reserved sensors sensors st.intern hnodup
      (fun d hd _ => hd)
  have hpres : ∀ st2 : AgentConfigState, ∀ doc : List SensorDesc,
      (∀ d ∈ st2.agentconfig, ¬ reservedKind d) →
        ∀ d ∈ (save_config st2 doc).agentconfig, ¬ reservedKind d := by
    intro st2 doc hinv
    unfold save_config
    by_cases hv : configValid doc
    · rw [if_pos hv]
      have hnd : doc.Nodup := by
        have := (Bool.and_eq_true _ _).mp hv
        exact of_decide_eq_true this.2
      exact filterIntern_no_reserved doc doc st2.intern hnd (fun d hd _ => hd)
    · rw [if_neg hv]
      exact hinv
  refine ⟨hmain, ?_, ?_, ?_, ?_⟩
  · unfold save_config
    rw [if_pos hvalid]
  · intro hex
    have := (filterIntern_records_ids sensors sensors st.intern).1 hex
    unfold save_config
    rw [if_pos hvalid]
    exact this
  · intro hex
    have := (filterIntern_records_ids sensors sensors st.intern).2 hex
    unfold save_config
    rw [if_pos hvalid]
    exact this
  · intro st2 doc hinv
    exact ⟨hpres st2 doc hinv, hpres st2 _ hinv, hpres st2 doc hinv⟩

/-- Values of the serializable primitive types on which the pack and unpack
framing is exercised. Modelled from the spec: the registry contents
(`whmonit/common/types.py`, `PRIMITIVE_TYPE_REGISTRY`) are not among the
sources; of the closed primitive registry the spec describes (bool, float,
string, datetime, ...), the members with exact embeddings, bool and str, are
carried here — float and datetime values raise floating point and
sub-millisecond questions orthogonal to the framing contract. -/
inductive SVal where
  | bool (b : Bool)
  | str (s : String)
deriving DecidableEq

/-- The python `__name__` of the type of a value, used as its schema. -/
def typeName : SVal → String
  | SVal.bool _ => "bool"
  | SVal.str _ => "str"

/-- Lowercase hexadecimal digit, as json.dumps emits in `\u` escapes. -/
def hexDigit (n : ℕ) : Char :=
  if n < 10 then Char.ofNat (48 + n) else Char.ofNat (87 + n)

/-- Python `json.dumps` escaping of one character with the default
ensure_ascii: quote, backslash and the five short escapes keep their
two-character forms, other control characters and all non-ASCII characters
become `\uXXXX` escapes, with a surrogate pair above the basic plane. -/
def jsonEscapeChar (c : Char) : List Char :=
  if c = '"' then ['\\', '"']
  else if c = '\\' then ['\\', '\\']
  else if c = '\n' then ['\\', 'n']
  else if c = '\t' then ['\\', 't']
  else if c = '\r' then ['\\', 'r']
  else if c.toNat = 8 then ['\\', 'b']
  else if c.toNat = 12 then ['\\', 'f']
  else if c.toNat < 32 ∨ 126 < c.toNat then
    if c.toNat < 65536 then
      ['\\', 'u', hexDigit (c.toNat / 4096 % 16), hexDigit (c.toNat / 256 % 16),
       hexDigit (c.toNat / 16 % 16), hexDigit (c.toNat % 16)]
    else
      let v := c.toNat - 65536
      let hi := 55296 + v / 1024
      let lo := 56320 + v % 1024
      ['\\', 'u', hexDigit (hi / 4096 % 16), hexDigit (hi / 256 % 16),
       hexDigit (hi / 16 % 16), hexDigit (hi % 16),
       '\\', 'u', hexDigit (lo / 4096 % 16), hexDigit (lo / 256 % 16),
       hexDigit (lo / 16 % 16), hexDigit (lo % 16)]
  else [c]

/-- The serialization methods of `JSONTypeRegistrySerializer`:
`serialize_bool` and `serialize_str` are `json.dumps`. -/
def jsonDumps : SVal → String
  | SVal.bool true => "true"
  | SVal.bool false => "false"
  | SVal.str s => String.mk ('"' :: ((s.data.map jsonEscapeChar).flatten ++ ['"']))

/-- Scalar JSON values `json.loads` can produce from serializer payloads. -/
inductive JScalar where
  | null
  | bool (b : Bool)
  | num (n : ℤ)
  | str (s : String)
deriving DecidableEq

/-- Value of one hexadecimal digit character. -/
def hexVal (c : Char) : Option ℕ :=
  if '0' ≤ c ∧ c ≤ '9' then some (c.toNat - 48)
  else if 'a' ≤ c ∧ c ≤ 'f' then some (c.toNat - 87)
  else if 'A' ≤ c ∧ c ≤ 'F' then some (c.toNat - 55)
  else none

/-- Decode a JSON string body after its opening quote, unescaping as
`json.loads` does, up to the closing quote; returns the content and the
remaining characters. Surrogate pairs combine into one character; a lone
surrogate is outside the model (json.dumps never emits one). -/
def parseJStrBody : List Char → Option (List Char × List Char)
  | [] => none
  | '"' :: rest => some ([], rest)
  | '\\' :: 'n' :: rest => (parseJStrBody rest).map fun p => ('\n' :: p.1, p.2)
  | '\\' :: 't' :: rest => (parseJStrBody rest).map fun p => ('\t' :: p.1, p.2)
  | '\\' :: 'r' :: rest => (parseJStrBody rest).map fun p => ('\r' :: p.1, p.2)
  | '\\' :: 'b' :: rest => (parseJStrBody rest).map fun p => (Char.ofNat 8 :: p.1, p.2)
  | '\\' :: 'f' :: rest => (parseJStrBody rest).map fun p => (Char.ofNat 12 :: p.1, p.2)
  | '\\' :: '/' :: rest => (parseJStrBody rest).map fun p => ('/' :: p.1, p.2)
  | '\\' :: '"' :: rest => (parseJStrBody rest).map fun p => ('"' :: p.1, p.2)
  | '\\' :: '\\' :: rest => (parseJStrBody rest).map fun p => ('\\' :: p.1, p.2)
  | '\\' :: 'u' :: a :: b :: c :: d :: rest =>
    match hexVal a, hexVal b, hexVal c, hexVal d with
    | some va, some vb, some vc, some vd =>
      let v := 4096 * va + 256 * vb + 16 * vc + vd
      if 55296 ≤ v ∧ v ≤ 56319 then
        match rest with
        | '\\' :: 'u' :: e :: f :: g :: h :: rest2 =>
          match hexVal e, hexVal f, hexVal g, hexVal h with
          | some ve, some vf, some vg, some vh =>
            let w := 4096 * ve + 256 * vf + 16 * vg + vh
            if 56320 ≤ w ∧ w ≤ 57343 then
              (parseJStrBody rest2).map fun p =>
                (Char.ofNat (65536 + 1024 * (v - 55296) + (w - 56320)) :: p.1, p.2)
            else none
          | _, _, _, _ => none
        | _ => none
      else if 56320 ≤ v ∧ v ≤ 57343 then none
      else (parseJStrBody rest).map fun p => (Char.ofNat v :: p.1, p.2)
    | _, _, _, _ => none
  | '\\' :: _ => none
  | c :: rest =>
    if c.toNat < 32 then none
    else (parseJStrBody rest).map fun p => (c :: p.1, p.2)

/-- Drop leading JSON whitespace. -/
def skipWs : List Char → List Char
  | [] => []
  | c :: rest =>
    if c = ' ' ∨ c = '\t' ∨ c = '\n' ∨ c = '\r' then skipWs rest else c :: rest

/-- Whether only whitespace remains. -/
def wsOnly (l : List Char) : Bool := (skipWs l).isEmpty

/-- Split off a maximal run of decimal digits. -/
def takeDigits : List Char → List Char × List Char
  | [] => ([], [])
  | c :: rest =>
    if c.isDigit then
      let p := takeDigits rest
      (c :: p.1, p.2)
    else ([], c :: rest)

/-- Numeric value of a run of decimal digits. -/
def digitsVal (l : List Char) : ℕ :=
  l.foldl (fun acc c => 10 * acc + (c.toNat - 48)) 0

/-- Parse the digit tail of a JSON integer (no leading zeros, nothing but
whitespace after). -/
def parseIntTail (neg : Bool) (l : List Char) : Option JScalar :=
  let p := takeDigits l
  if p.1.isEmpty then none
  else if 1 < p.1.length ∧ p.1.headD '0' = '0' then none
  else if wsOnly p.2 then
    some (JScalar.num (if neg then -(digitsVal p.1 : ℤ) else (digitsVal p.1 : ℤ)))
  else none

/-- Python stdlib `json.loads` on the scalar payload texts the embedded
serializer handles: the literals true, false and null, integers, and quoted
strings, with surrounding whitespace. Fractional and exponent number forms
are outside the model; the embedded serializer never emits them. -/
def jsonLoadsScalar (s : String) : Option JScalar :=
  match skipWs s.data with
  | 't' :: 'r' :: 'u' :: 'e' :: rest =>
    if wsOnly rest then some (JScalar.bool true) else none
  | 'f' :: 'a' :: 'l' :: 's' :: 'e' :: rest =>
    if wsOnly rest then some (JScalar.bool false) else none
  | 'n' :: 'u' :: 'l' :: 'l' :: rest =>
    if wsOnly rest then some JScalar.null else none
  | '"' :: rest =>
    match parseJStrBody rest with
    | some (content, rest2) =>
      if wsOnly rest2 then some (JScalar.str (String.mk content)) else none
    | none => none
  | '-' :: rest => parseIntTail true rest
  | c :: rest =>
    if c.isDigit then parseIntTail false (c :: rest) else none
  | [] => none

/-- Python `str()` of a loaded scalar, as `deserialize_str` applies it. -/
def pyStr : JScalar → String
  | JScalar.str s => s
  | JScalar.num n => toString n
  | JScalar.bool true => "True"
  | JScalar.bool false => "False"
  | JScalar.null => "None"

/-- Errors of the serialization base and of `json.loads` inside it. -/
inductive SerErr where
  | nameNotRegistered
  | invalidSignature
  | valueError
  | deserializationTypeError
  | structError
deriving DecidableEq

/-- Embedding of `TypeRegistrySerializationBase.deserialize` over the
embedded registry: resolve the schema name to a registered type
(NameNotRegisteredError otherwise), run the JSON deserializer of that type
(`deserialize_bool` is `json.loads`, `deserialize_str` is
`str(json.loads(...))`), and check the result is an instance of the schema
type (DeserializationTypeError otherwise; `str()` always yields a str). -/
def deserialize (payload schema : String) : Except SerErr SVal :=
  if schema = "bool" then
    match jsonLoadsScalar payload with
    | none => Except.error SerErr.valueError
    | some (JScalar.bool b) => Except.ok (SVal.bool b)
    | some _ => Except.error SerErr.deserializationTypeError
  else if schema = "str" then
    match jsonLoadsScalar payload with
    | none => Except.error SerErr.valueError
    | some v => Except.ok (SVal.str (pyStr v))
  else
    Except.error SerErr.nameNotRegistered

/-- Bytes of an ASCII text (every text the embedded serializer produces is
ASCII: schemas are type names and json.dumps uses ensure_ascii). -/
def strBytes (s : String) : List ℕ := s.data.map Char.toNat

/-- Text of a byte list. -/
def bytesStr (l : List ℕ) : String := String.mk (l.map Char.ofNat)

/-- `struct.pack` of one unsigned big-endian 16-bit value (`!H`); the
embedded callers stay far below the 65536 overflow that would raise. -/
def packU16 (n : ℕ) : List ℕ := [n / 256 % 256, n % 256]

/-- Embedding of `TypeRegistrySerializationBase.pack` bound to the
`JSONTypeRegistrySerializer` (signature 1): 2-byte big-endian signature,
2-byte big-endian schema length, schema name bytes, then the serialized
payload bytes to the end of the buffer. -/
def pack (data : SVal) : List ℕ :=
  packU16 1 ++ packU16 (typeName data).length ++ strBytes (typeName data)
    ++ strBytes (jsonDumps data)

/-- Embedding of `TypeRegistrySerializationBase.unpack`: compare the first
two bytes against the packed signature (InvalidSignatureError on mismatch),
`struct.unpack` the schema length from bytes 2 to 4 and the schema from the
following bytes (struct.error when the buffer is too short), and deserialize
the rest of the buffer against the schema. The source returns only this
deserialized value, although its docstring announces `schema, data`. -/
def unpack (data : List ℕ) : Except SerErr SVal :=
  if data.take 2 ≠ packU16 1 then
    Except.error SerErr.invalidSignature
  else if data.length < 4 then
    Except.error SerErr.structError
  else
    let len := 256 * data.getD 2 0 + data.getD 3 0
    if ((data.drop 4).take len).length < len then
      Except.error SerErr.structError
    else
      deserialize (bytesStr (data.drop (4 + len))) (bytesStr ((data.drop 4).take len))

/-- C8: the framing of `pack` parses back through `unpack` — the signature,
schema length, schema name and payload are recovered, and the value round
trips for registered values — but `unpack` yields only the bare deserialized
value: its result carries no schema, while the claim (with the unpack
docstring and the intended assertion of the pack/unpack API test) promises
the value together with the schema. -/
theorem unpack_pack_value_only :
    (∀ b, unpack (pack (SVal.bool b)) = Except.ok (SVal.bool b))
    ∧ unpack (pack (SVal.str "x")) = Except.ok (SVal.str "x")
    ∧ pack (SVal.bool true) = [0, 1, 0, 4] ++ strBytes "bool" ++ strBytes "true" := by
  refine ⟨?_, rfl, rfl⟩
  intro b
  cases b <;> rfl

/-- C10 witness: a valid document holding an `_error` descriptor, a
`_conf_applied` descriptor and one ordinary sensor; the ordinary sensor is in
the saved configuration and the theorem shows it is not of a reserved kind. -/
theorem save_config_filters_reserved_witness :
    ¬ reservedKind { sensor := "uptime", config_id := "uu", target := "tt", target_id := "ti", config := [] } :=
  (save_config_filters_reserved
    { agentconfig := [], configfile := none
      intern := { error_id := none, config_applied_id := none } }
    [ { sensor := "_error", config_id := "ee", target := "tt",
        target_id := "ti", config := [] },
      { sensor := "_conf_applied", config_id := "cc", target := "tt",
        target_id := "ti", config := [] },
      { sensor := "uptime", config_id := "uu", target := "tt",
        target_id := "ti", config := [] } ] (by decide)).1
    { sensor := "uptime", config_id := "uu", target := "tt",
      target_id := "ti", config := [] } (by decide)

end Monitowl

